import Mathlib

/-!
Shallow embedding of the session-scoped RAG service in `src/api/app.py`
(chunking, batched embedding, vector-index lifecycle, token-budgeted
conversation history, streamed chat with commit-on-completion), together
with theorems settling the specification claims.

The helper library `aimakerspace` (`CharacterTextSplitter`,
`VectorDatabase`) is imported by `app.py` but its sources are not under
`src/`; those two pieces are modelled from the spec (each such definition
says so in its doc comment).  Everything else is translated directly from
`src/api/app.py`.
-/

namespace RagApp

/-- One message of a conversation: `{"role": ..., "content": ...}` as the
dict-shaped messages in `app.py` (roles are the strings `"user"`,
`"assistant"`, `"developer"`). -/
structure Turn where
  role : String
  content : String
deriving DecidableEq, Repr

/-- `manage_conversation_history`, inner helper `estimate_tokens`:
`sum(len(msg["content"]) for msg in messages) // 4` (app.py line 111). -/
def estimate_tokens (messages : List Turn) : Nat :=
  (messages.map (fun msg => msg.content.length)).sum / 4

/-- The default `max_history_tokens` of `manage_conversation_history`
(app.py line 95). -/
def max_history_tokens : Nat := 8000

/-- The trimming loop of `manage_conversation_history` (app.py lines
115-117): while more than two entries remain and the token estimate
exceeds the budget, drop the oldest user/assistant pair (the two front
entries). -/
def trimLoop (budget : Nat) (history : List Turn) : List Turn :=
  if _h : 2 < history.length ∧ budget < estimate_tokens history then
    trimLoop budget (history.drop 2)
  else
    history
termination_by history.length
decreasing_by
  simp only [List.length_drop]
  omega

/-- The effect of one `manage_conversation_history` call on one session's
history list (app.py lines 95-117): append the user turn and the assistant
turn, then run the trimming loop. -/
def append_turn (budget : Nat) (history : List Turn) (user_message assistant_response : String) :
    List Turn :=
  trimLoop budget (history ++ [⟨"user", user_message⟩, ⟨"assistant", assistant_response⟩])

/-- A sequence of `append_turn` calls on a session that starts with no
history, each at the default budget. -/
def run_turns (pairs : List (String × String)) : List Turn :=
  pairs.foldl (fun h p => append_turn max_history_tokens h p.1 p.2) []

/-- The history consists of whole user/assistant pairs in order. -/
def pairedB : List Turn → Bool
  | [] => true
  | u :: a :: rest => u.role == "user" && a.role == "assistant" && pairedB rest
  | _ => false

/-- Error taxonomy of the core (spec §7); `ConfigurationError` for invalid
chunk parameters, `EmbeddingProviderError` for an upstream embedding
failure. -/
inductive CoreErr where
  | ConfigurationError : CoreErr
  | EmbeddingProviderError : String → CoreErr
deriving DecidableEq, Repr

/-- A FastAPI `HTTPException`, as raised by the endpoints in `app.py`. -/
structure HTTPException where
  status : Nat
  detail : String
deriving DecidableEq, Repr

/-- An embedding vector.  The numeric field type is irrelevant to every
claim (providers are abstracted as parameters), so vectors are embedded
with exact rationals in place of floats. -/
abbrev Embedding := List ℚ

/-- Modelled from the spec: `VectorDatabase` lives in
`aimakerspace/vectordatabase.py`, which is not under `src/`.  Spec §3: a
VectorIndex is an ordered sequence of `(chunk, vector)` IndexEntry pairs;
`app.py` reads `vector_db.vectors` only for its entry count. -/
structure VectorDatabase where
  vectors : List (String × Embedding)
deriving DecidableEq, Repr

/-- The process-wide session maps of `app.py` lines 72-74: `vector_dbs`,
`pdf_filenames` and `conversation_histories`, each keyed by session id. -/
structure AppState where
  vector_dbs : String → Option VectorDatabase
  pdf_filenames : String → Option String
  conversation_histories : String → Option (List Turn)

/-- The state at process start: all three maps empty. -/
def empty_state : AppState :=
  ⟨fun _ => none, fun _ => none, fun _ => none⟩

/-- `manage_conversation_history` (app.py lines 95-117) acting on the
session maps: create the session's history if absent, append the
user/assistant pair, then trim. -/
def manage_conversation_history (st : AppState)
    (session_id user_message assistant_response : String) : AppState :=
  let history := (st.conversation_histories session_id).getD []
  { st with conversation_histories := fun s =>
      if s = session_id then
        some (append_turn max_history_tokens history user_message assistant_response)
      else st.conversation_histories s }

/-- `get_conversation_context` (app.py lines 119-121):
`conversation_histories.get(session_id, [])`. -/
def get_conversation_context (st : AppState) (session_id : String) : List Turn :=
  (st.conversation_histories session_id).getD []

/-- The sub-batch partition of `CustomEmbeddingModel.async_get_embeddings`
(app.py line 36): `[list_of_text[i:i + 1024] for i in range(0, len, 1024)]`. -/
def sub_batches (list_of_text : List String) : List (List String) :=
  if hne : list_of_text = [] then []
  else list_of_text.take 1024 :: sub_batches (list_of_text.drop 1024)
termination_by list_of_text.length
decreasing_by
  simp only [List.length_drop]
  have := List.length_pos.mpr hne
  omega

/-- `asyncio.gather` over the per-batch embedding calls (app.py line 45):
all sub-batches are awaited jointly, results are collected positionally in
batch order, and any batch failure fails the whole gather. -/
def gather {V : Type} (provider : List String → Except CoreErr (List V)) :
    List (List String) → Except CoreErr (List (List V))
  | [] => .ok []
  | b :: bs =>
      match provider b with
      | .error e => .error e
      | .ok r =>
          match gather provider bs with
          | .error e => .error e
          | .ok rs => .ok (r :: rs)

/-- `CustomEmbeddingModel.async_get_embeddings` (app.py lines 33-48):
partition into sub-batches of 1024, embed each via the upstream provider
(abstracted as the `provider` parameter), gather, then flatten in order. -/
def async_get_embeddings {V : Type} (provider : List String → Except CoreErr (List V))
    (list_of_text : List String) : Except CoreErr (List V) :=
  match gather provider (sub_batches list_of_text) with
  | .error e => .error e
  | .ok results => .ok results.flatten

/-- Modelled from the spec: `CharacterTextSplitter.split` lives in
`aimakerspace/text_utils.py`, which is not under `src/`.  Spec §4.1: walk
the input in windows of `chunk_size` characters whose starts advance by
`step = chunk_size - chunk_overlap`, until the window start reaches or
exceeds the text length; the final chunk may be shorter. -/
def walk_chunks (chunk_size step : Nat) (hstep : 0 < step) (chars : List Char) :
    List String :=
  if hne : chars = [] then []
  else String.mk (chars.take chunk_size) :: walk_chunks chunk_size step hstep (chars.drop step)
termination_by chars.length
decreasing_by
  simp only [List.length_drop]
  have := List.length_pos.mpr hne
  omega

/-- Modelled from the spec: the `CharacterTextSplitter` contract, spec §4.1
(the splitter itself is in `aimakerspace/text_utils.py`, not under `src/`):
`chunk_overlap ≥ chunk_size` is a configuration error and fails fast;
otherwise the window walk of `walk_chunks` runs. -/
def split (chunk_size chunk_overlap : Nat) (text : String) :
    Except CoreErr (List String) :=
  if hcfg : chunk_size ≤ chunk_overlap then .error .ConfigurationError
  else .ok (walk_chunks chunk_size (chunk_size - chunk_overlap) (by omega) text.toList)

/-- Modelled from the spec: `VectorDatabase.abuild_from_list` lives in
`aimakerspace/vectordatabase.py`, which is not under `src/`.  Spec §4.3:
bulk construction pairing each chunk with its embedding, via the batched
embedder. -/
def abuild_from_list (provider : List String → Except CoreErr (List Embedding))
    (list_of_text : List String) : Except CoreErr VectorDatabase :=
  match async_get_embeddings provider list_of_text with
  | .error e => .error e
  | .ok embeddings => .ok ⟨list_of_text.zip embeddings⟩

/-- `create_rag_system` (app.py lines 123-141): split the text, then build
the vector database from the chunks (the embedding provider is the
abstracted upstream call). -/
def create_rag_system (provider : List String → Except CoreErr (List Embedding))
    (text : String) (chunk_size chunk_overlap : Nat) : Except CoreErr VectorDatabase :=
  match split chunk_size chunk_overlap text with
  | .error e => .error e
  | .ok chunks => abuild_from_list provider chunks

/-- The success payload of `upload_pdf` (app.py lines 177-182). -/
structure UploadResponse where
  message : String
  filename : String
  session_id : String
  chunks_created : Nat
deriving DecidableEq, Repr

/-- Rendering of a core error for the `HTTPException` detail string (the
`str(e)` of app.py line 185). -/
def err_str : CoreErr → String
  | .ConfigurationError => "ConfigurationError"
  | .EmbeddingProviderError msg => msg

/-- `upload_pdf` (app.py lines 144-185): validate the filename, build the
RAG system, and only on success store the new vector database and filename
for the session.  Any exception inside the `try` block — including the
filename-validation `HTTPException(400)` — is re-raised by the outer
`except` as an `HTTPException(500, "Error processing PDF: ...")`, leaving
the session maps untouched. -/
def upload_pdf (st : AppState) (provider : List String → Except CoreErr (List Embedding))
    (filename text session_id : String) (chunk_size chunk_overlap : Nat) :
    AppState × Except HTTPException UploadResponse :=
  if ".pdf".data.isSuffixOf filename.data then
    match create_rag_system provider text chunk_size chunk_overlap with
    | .error e => (st, .error ⟨500, "Error processing PDF: " ++ err_str e⟩)
    | .ok vector_db =>
        ({ st with
            vector_dbs := fun s => if s = session_id then some vector_db else st.vector_dbs s,
            pdf_filenames := fun s => if s = session_id then some filename else st.pdf_filenames s },
          .ok ⟨"PDF uploaded and indexed successfully", filename, session_id,
            vector_db.vectors.length⟩)
  else
    (st, .error ⟨500, "Error processing PDF: 400: Only PDF files are allowed"⟩)

/-- `clear_pdf` (app.py lines 287-295): delete the session's vector
database and filename when present, else raise `HTTPException(404)`. -/
def clear_pdf (st : AppState) (session_id : String) :
    AppState × Except HTTPException String :=
  if (st.vector_dbs session_id).isSome then
    ({ st with
        vector_dbs := fun s => if s = session_id then none else st.vector_dbs s,
        pdf_filenames := fun s => if s = session_id then none else st.pdf_filenames s },
      .ok "PDF cleared successfully")
  else
    (st, .error ⟨404, "No PDF found for this session"⟩)

/-- `clear_conversation` (app.py lines 298-305): delete the session's
history when present; when absent, return the structured nothing-to-clear
message (never an exception, hence no `Except` in the return type). -/
def clear_conversation (st : AppState) (session_id : String) : AppState × String :=
  if (st.conversation_histories session_id).isSome then
    ({ st with conversation_histories := fun s =>
        if s = session_id then none else st.conversation_histories s },
      "Conversation history cleared successfully")
  else
    (st, "No conversation history found for this session")

/-- The body of a `/api/chat` request (app.py lines 78-84), with the fields
the core logic reads. -/
structure ChatRequest where
  developer_message : String
  user_message : String
  model : String
  session_id : String
  num_chunks_to_retrieve : Nat

/-- The RAG prompt template of app.py lines 226-231 (the f-string built
around the retrieved context). -/
def rag_template (filename context question : String) : String :=
  "Context from PDF '" ++ filename ++ "':\n" ++ context ++ "\n\nUser Question: "
    ++ question ++ "\n\nPlease answer the user's question based on the provided "
    ++ "context from the PDF. If the context doesn't contain relevant information, "
    ++ "let the user know."

/-- The message-list construction of `generate` (app.py lines 201-236):
developer message, then the session's conversation context, then the final
user message — raw, or RAG-enhanced when the session has a vector
database.  `search_by_text` abstracts `VectorDatabase.search_by_text`
(aimakerspace, not under `src/`): it yields the ranked chunk texts for the
query and `k = num_chunks_to_retrieve`. -/
def generate_messages (search_by_text : VectorDatabase → String → Nat → List String)
    (st : AppState) (req : ChatRequest) : List Turn :=
  let messages : List Turn := [⟨"developer", req.developer_message⟩]
  let messages := messages ++ get_conversation_context st req.session_id
  match st.vector_dbs req.session_id with
  | some vector_db =>
      let relevant_chunks := search_by_text vector_db req.user_message req.num_chunks_to_retrieve
      let context := String.intercalate "\n\n" relevant_chunks
      let enhanced_message :=
        rag_template ((st.pdf_filenames req.session_id).getD "") context req.user_message
      messages ++ [⟨"user", enhanced_message⟩]
  | none =>
      messages ++ [⟨"user", req.user_message⟩]

/-- The final user message as the spec describes it (spec §4.5): the raw
`user_message` in state `no_index`, or the template around the top-k
retrieved chunk texts joined by a blank-line separator plus the original
question when `indexed`. -/
def final_user_message (search_by_text : VectorDatabase → String → Nat → List String)
    (st : AppState) (req : ChatRequest) : Turn :=
  match st.vector_dbs req.session_id with
  | none => ⟨"user", req.user_message⟩
  | some vector_db =>
      ⟨"user", rag_template ((st.pdf_filenames req.session_id).getD "")
        (String.intercalate "\n\n"
          (search_by_text vector_db req.user_message req.num_chunks_to_retrieve))
        req.user_message⟩

/-- Python whitespace for `str.strip()` (ASCII): the characters removed
when deciding `if assistant_response.strip():`. -/
def is_py_space (c : Char) : Bool :=
  c == ' ' || c == '\t' || c == '\n' || c == '\r' || c == '\x0b' || c == '\x0c'

/-- Truthiness of `assistant_response.strip()` (app.py line 257): true iff
some character is not whitespace. -/
def strip_truthy (s : String) : Bool :=
  s.data.any (fun c => !(is_py_space c))

/-- The streaming body of the `/api/chat` endpoint, `generate` plus
`generate_and_save` (app.py lines 238-258).  The completion stream is
embedded by its observable trace: `deltas` are the `chunk.choices[0].delta.content`
values of the provider's stream (`none` for a `None` delta, which is not
yielded), `provider_completed` is whether the provider's stream ended
normally rather than raising, and `consumed` is how many yielded chunks
the client consumed before disconnecting.  The code after the `async for`
loop runs only when the loop finishes normally — every yielded chunk
consumed and the provider stream completed — so the history commit happens
exactly then, and only for a non-whitespace accumulated response. -/
def chat_run (st : AppState) (req : ChatRequest) (deltas : List (Option String))
    (provider_completed : Bool) (consumed : Nat) : AppState :=
  let yielded := deltas.filterMap id
  let assistant_response := yielded.foldl (fun acc c => acc ++ c) ""
  if provider_completed ∧ yielded.length ≤ consumed ∧ strip_truthy assistant_response then
    manage_conversation_history st req.session_id req.user_message assistant_response
  else
    st

lemma trimLoop_length_mod (budget : Nat) (history : List Turn) :
    (trimLoop budget history).length % 2 = history.length % 2 := by
  induction history using trimLoop.induct budget with
  | case1 history hcond ih =>
    rw [trimLoop, dif_pos hcond, ih]
    simp only [List.length_drop]
    omega
  | case2 history hcond =>
    rw [trimLoop, dif_neg hcond]

lemma pairedB_drop_two (l : List Turn) (hp : pairedB l = true) :
    pairedB (l.drop 2) = true := by
  match l with
  | [] => simpa using hp
  | [x] => simp [pairedB] at hp
  | u :: a :: rest => simp only [pairedB, Bool.and_eq_true] at hp; simpa using hp.2

lemma trimLoop_paired (budget : Nat) (history : List Turn)
    (hp : pairedB history = true) : pairedB (trimLoop budget history) = true := by
  induction history using trimLoop.induct budget with
  | case1 history hcond ih =>
    rw [trimLoop, dif_pos hcond]
    exact ih (pairedB_drop_two history hp)
  | case2 history hcond =>
    rw [trimLoop, dif_neg hcond]
    exact hp

theorem pairedB_append_pair : ∀ (l : List Turn) (u a : String), pairedB l = true →
    pairedB (l ++ [⟨"user", u⟩, ⟨"assistant", a⟩]) = true
  | [], u, a, _ => by simp [pairedB]
  | [x], _, _, hp => by simp [pairedB] at hp
  | x :: y :: rest, u, a, hp => by
    simp only [pairedB, Bool.and_eq_true, beq_iff_eq] at hp
    simp only [List.cons_append, pairedB, Bool.and_eq_true, beq_iff_eq]
    exact ⟨⟨hp.1.1, hp.1.2⟩, pairedB_append_pair rest u a hp.2⟩

lemma trimLoop_even_drop (budget : Nat) (history : List Turn)
    (heven : history.length % 2 = 0) :
    ∃ n, trimLoop budget history = history.drop n ∧
      (2 ≤ history.length → n + 2 ≤ history.length) := by
  induction history using trimLoop.induct budget with
  | case1 history hcond ih =>
    have heven2 : (history.drop 2).length % 2 = 0 := by
      simp only [List.length_drop]
      omega
    obtain ⟨n, hdrop, hle⟩ := ih heven2
    refine ⟨2 + n, ?_, ?_⟩
    · rw [trimLoop, dif_pos hcond, hdrop, List.drop_drop]
    · intro _
      have h4 : 4 ≤ history.length := by omega
      have := hle (by simp only [List.length_drop]; omega)
      simp only [List.length_drop] at this
      omega
  | case2 history hcond =>
    refine ⟨0, ?_, ?_⟩
    · rw [trimLoop, dif_neg hcond]
      simp
    · omega

lemma append_turn_length_mod (budget : Nat) (h : List Turn) (u a : String)
    (he : h.length % 2 = 0) : (append_turn budget h u a).length % 2 = 0 := by
  unfold append_turn
  rw [trimLoop_length_mod]
  simp only [List.length_append, List.length_cons, List.length_nil]
  omega

lemma append_turn_paired (budget : Nat) (h : List Turn) (u a : String)
    (hp : pairedB h = true) : pairedB (append_turn budget h u a) = true :=
  trimLoop_paired _ _ (pairedB_append_pair h u a hp)

lemma append_turn_tail (budget : Nat) (h : List Turn) (u a : String)
    (he : h.length % 2 = 0) :
    ∃ pre, append_turn budget h u a = pre ++ [⟨"user", u⟩, ⟨"assistant", a⟩] := by
  have heven : (h ++ [⟨"user", u⟩, ⟨"assistant", a⟩] : List Turn).length % 2 = 0 := by
    simp only [List.length_append, List.length_cons, List.length_nil]
    omega
  obtain ⟨n, hdrop, hle⟩ := trimLoop_even_drop budget _ heven
  have hlen : 2 ≤ (h ++ [⟨"user", u⟩, ⟨"assistant", a⟩] : List Turn).length := by
    simp only [List.length_append, List.length_cons, List.length_nil]
    omega
  have hn : n ≤ h.length := by
    have := hle hlen
    simp only [List.length_append, List.length_cons, List.length_nil] at this
    omega
  refine ⟨h.drop n, ?_⟩
  unfold append_turn
  rw [hdrop, List.drop_append_of_le_length hn]

lemma foldl_turns_inv : ∀ (ps : List (String × String)) (h : List Turn),
    h.length % 2 = 0 → pairedB h = true →
    (ps.foldl (fun h p => append_turn max_history_tokens h p.1 p.2) h).length % 2 = 0 ∧
      pairedB (ps.foldl (fun h p => append_turn max_history_tokens h p.1 p.2) h) = true
  | [], h, he, hp => ⟨he, hp⟩
  | p :: ps, h, he, hp =>
    foldl_turns_inv ps _ (append_turn_length_mod _ h p.1 p.2 he)
      (append_turn_paired _ h p.1 p.2 hp)

/-- **C1**: after any sequence of `append_turn` calls on a session that starts
empty, the stored history has even length and consists of whole
user/assistant pairs, and appending one more pair always leaves that pair as
the suffix of the stored history — trimming removes pairs only from the
front and never removes the sole remaining pair, even when it alone exceeds
the token budget. -/
theorem history_pairing_invariant (ps : List (String × String)) :
    (run_turns ps).length % 2 = 0 ∧ pairedB (run_turns ps) = true ∧
      ∀ u a, ∃ pre,
        run_turns (ps ++ [(u, a)]) = pre ++ [⟨"user", u⟩, ⟨"assistant", a⟩] := by
  obtain ⟨he, hp⟩ := foldl_turns_inv ps [] rfl rfl
  refine ⟨he, hp, fun u a => ?_⟩
  have hsplit : run_turns (ps ++ [(u, a)]) =
      append_turn max_history_tokens (run_turns ps) u a := by
    unfold run_turns
    rw [List.foldl_append]
    rfl
  rw [hsplit]
  exact append_turn_tail _ _ u a he

lemma sub_batches_nil : sub_batches [] = [] := by
  rw [sub_batches]
  simp

lemma sub_batches_small (l : List String) (hne : l ≠ []) (hle : l.length ≤ 1024) :
    sub_batches l = [l] := by
  rw [sub_batches, dif_neg hne, List.take_of_length_le hle, List.drop_of_length_le hle,
    sub_batches_nil]

lemma sub_batches_flatten (l : List String) : (sub_batches l).flatten = l := by
  induction l using sub_batches.induct with
  | case1 =>
    simp [sub_batches_nil]
  | case2 l hl ih =>
    rw [sub_batches, dif_neg hl, List.flatten_cons, ih, List.take_append_drop]

lemma gather_ok_of {V : Type} (provider : List String → Except CoreErr (List V))
    (f : String → V) (hp : ∀ b, provider b = .ok (b.map f)) :
    ∀ bs : List (List String), gather provider bs = .ok (bs.map (fun b => b.map f))
  | [] => rfl
  | b :: bs => by
    simp only [gather, hp b, gather_ok_of provider f hp bs, List.map_cons]

lemma gather_error_of_mem {V : Type} (provider : List String → Except CoreErr (List V)) :
    ∀ (bs : List (List String)) (b : List String) (e : CoreErr),
      b ∈ bs → provider b = .error e → ∃ e2, gather provider bs = .error e2
  | [], b, e, hmem, _ => absurd hmem (List.not_mem_nil b)
  | b2 :: bs, b, e, hmem, herr => by
    cases hpb : provider b2 with
    | error e2 => exact ⟨e2, by simp only [gather, hpb]⟩
    | ok r =>
      rcases List.mem_cons.mp hmem with rfl | hmem2
      · rw [hpb] at herr
        exact absurd herr (by simp)
      · obtain ⟨e2, hg⟩ := gather_error_of_mem provider bs b e hmem2 herr
        exact ⟨e2, by simp only [gather, hpb, hg]⟩

/-- **C5**: when the upstream provider embeds each sub-batch elementwise
(one vector per input, modelled by a per-text function `f`),
`async_get_embeddings` returns exactly one vector per input text in input
order — the 1024-wide sub-batch partition and the `asyncio.gather` join
never reorder or drop anything. -/
theorem embed_batch_preserves_order {V : Type}
    (provider : List String → Except CoreErr (List V)) (f : String → V)
    (hp : ∀ b, provider b = .ok (b.map f)) (texts : List String) :
    async_get_embeddings provider texts = .ok (texts.map f) := by
  unfold async_get_embeddings
  rw [gather_ok_of provider f hp (sub_batches texts)]
  have hflat : ((sub_batches texts).map (fun b => b.map f)).flatten = texts.map f := by
    rw [← List.map_flatten, sub_batches_flatten]
  simp only [hflat]

/-- Witness for C5: two texts embedded to their lengths, in order. -/
theorem embed_batch_preserves_order_witness :
    async_get_embeddings (fun b => .ok (b.map String.length)) ["a", "bc"] = .ok [1, 2] :=
  embed_batch_preserves_order _ String.length (fun _ => rfl) ["a", "bc"]

/-- **C6**: if the upstream embedding call fails for any sub-batch of the
partition, the whole `async_get_embeddings` call fails with a single error
— no partial list of vectors is ever returned. -/
theorem embed_batch_all_or_nothing {V : Type}
    (provider : List String → Except CoreErr (List V)) (texts : List String)
    (b : List String) (e : CoreErr) (hmem : b ∈ sub_batches texts)
    (herr : provider b = .error e) :
    ∃ e2, async_get_embeddings provider texts = .error e2 := by
  obtain ⟨e2, hg⟩ := gather_error_of_mem provider (sub_batches texts) b e hmem herr
  exact ⟨e2, by simp only [async_get_embeddings, hg]⟩

/-- Witness for C6: a provider that always fails makes the whole batch
call fail. -/
theorem embed_batch_all_or_nothing_witness :
    ∃ e2, async_get_embeddings (V := Embedding)
      (fun _ => .error (.EmbeddingProviderError "boom")) ["a"] = .error e2 :=
  embed_batch_all_or_nothing _ ["a"] ["a"] (.EmbeddingProviderError "boom")
    (by simp [sub_batches_small]) rfl

/-- **C7**: calling the chunker with `chunk_overlap ≥ chunk_size` fails
fast with `ConfigurationError`; no chunks (hence no duplicate or empty
chunks) are produced, and the window walk — whose step would be zero — is
never entered, so the splitter cannot loop. -/
theorem chunker_rejects_bad_overlap (chunk_size chunk_overlap : Nat) (text : String)
    (h : chunk_size ≤ chunk_overlap) :
    split chunk_size chunk_overlap text = .error .ConfigurationError := by
  unfold split
  rw [dif_pos h]

/-- Witness for C7: `chunk_overlap = chunk_size = 100` is rejected. -/
theorem chunker_rejects_bad_overlap_witness :
    split 100 100 "abc" = .error .ConfigurationError :=
  chunker_rejects_bad_overlap 100 100 "abc" (by decide)

/-- **C2**: the message list sent to the completion provider is exactly
the developer message, then the session's full stored conversation history
in order, then one final user message — the raw `user_message` when the
session has no index, or the RAG template around the top-k retrieved chunk
texts (joined by a blank-line separator) and the original question when it
is indexed. -/
theorem chat_message_list_shape
    (search_by_text : VectorDatabase → String → Nat → List String)
    (st : AppState) (req : ChatRequest) :
    generate_messages search_by_text st req =
      ⟨"developer", req.developer_message⟩ ::
        (get_conversation_context st req.session_id
          ++ [final_user_message search_by_text st req]) := by
  unfold generate_messages final_user_message
  cases st.vector_dbs req.session_id <;> simp

/-- **C3**: if the completion stream fails (the provider raised) or is
abandoned partway (the client consumed fewer chunks than were yielded),
the conversation history — indeed the whole session state — is left
exactly as it was: the commit after the `async for` loop never runs. -/
theorem partial_stream_commits_nothing (st : AppState) (req : ChatRequest)
    (deltas : List (Option String)) (provider_completed : Bool) (consumed : Nat)
    (h : provider_completed = false ∨ consumed < (deltas.filterMap id).length) :
    chat_run st req deltas provider_completed consumed = st := by
  simp only [chat_run]
  rw [if_neg]
  rintro ⟨h1, h2, -⟩
  rcases h with h | h
  · rw [h] at h1
    simp at h1
  · omega

/-- Witness for C3: a provider failure after two yielded chunks commits
nothing. -/
theorem partial_stream_commits_nothing_witness :
    chat_run empty_state ⟨"dev", "hi", "gpt-4o-mini", "default", 3⟩
      [some "Hel", some "lo"] false 2 = empty_state :=
  partial_stream_commits_nothing _ _ _ _ _ (Or.inl rfl)

/-- **C10**: when the stream completes successfully but the accumulated
assistant response is empty or whitespace-only, `assistant_response.strip()`
is falsy, so no user/assistant pair is appended and the session state is
unchanged. -/
theorem whitespace_response_not_committed (st : AppState) (req : ChatRequest)
    (deltas : List (Option String)) (consumed : Nat)
    (hfull : (deltas.filterMap id).length ≤ consumed)
    (hws : strip_truthy ((deltas.filterMap id).foldl (fun acc c => acc ++ c) "") = false) :
    chat_run st req deltas true consumed = st := by
  simp only [chat_run]
  rw [if_neg]
  rintro ⟨-, -, h3⟩
  rw [hws] at h3
  simp at h3

/-- Witness for C10: a fully consumed stream of whitespace chunks commits
nothing. -/
theorem whitespace_response_not_committed_witness :
    chat_run empty_state ⟨"dev", "hi", "gpt-4o-mini", "default", 3⟩
      [some " ", none, some "\n"] true 5 = empty_state :=
  whitespace_response_not_committed _ _ _ _ (by decide) (by decide)

lemma walk_chunks_nil (chunk_size step : Nat) (hstep : 0 < step) :
    walk_chunks chunk_size step hstep [] = [] := by
  rw [walk_chunks]
  simp

lemma create_rag_system_empty (provider : List String → Except CoreErr (List Embedding))
    (chunk_size chunk_overlap : Nat) (hcfg : chunk_overlap < chunk_size) :
    create_rag_system provider "" chunk_size chunk_overlap = .ok ⟨[]⟩ := by
  unfold create_rag_system split
  rw [dif_neg (by omega)]
  rw [show ("" : String).toList = [] from rfl, walk_chunks_nil]
  show abuild_from_list provider [] = .ok ⟨[]⟩
  unfold abuild_from_list async_get_embeddings
  rw [sub_batches_nil]
  rfl

/-- Counterexample to **C4**: ingesting the empty string (which splits into
zero chunks) does not raise any `EmptyInputError` — `upload_pdf` succeeds,
stores an (empty) vector index under the session, and reports
`chunks_created = 0`; the session does not remain in the `no_index`
state. -/
theorem ingest_empty_no_error_counterexample :
    (upload_pdf empty_state (fun b => .ok (b.map (fun _ => ([] : Embedding)))) "doc.pdf" ""
        "default" 1000 200).2 =
      .ok ⟨"PDF uploaded and indexed successfully", "doc.pdf", "default", 0⟩ ∧
      (upload_pdf empty_state (fun b => .ok (b.map (fun _ => ([] : Embedding)))) "doc.pdf" ""
        "default" 1000 200).1.vector_dbs "default" = some ⟨[]⟩ := by
  unfold upload_pdf
  rw [if_pos (by decide), create_rag_system_empty _ 1000 200 (by decide)]
  exact ⟨rfl, by simp⟩

/-- **C4 (amended)**: ingestion whose input splits into zero chunks does
not fail: for any state, provider and valid chunk configuration,
uploading the empty string succeeds, stores an empty vector index for the
session (transitioning it out of `no_index`), and reports zero chunks. -/
theorem ingest_empty_stores_empty_index (st : AppState)
    (provider : List String → Except CoreErr (List Embedding))
    (filename session_id : String) (chunk_size chunk_overlap : Nat)
    (hpdf : ".pdf".data.isSuffixOf filename.data = true)
    (hcfg : chunk_overlap < chunk_size) :
    (upload_pdf st provider filename "" session_id chunk_size chunk_overlap).1.vector_dbs
        session_id = some ⟨[]⟩ ∧
      (upload_pdf st provider filename "" session_id chunk_size chunk_overlap).2 =
        .ok ⟨"PDF uploaded and indexed successfully", filename, session_id, 0⟩ := by
  unfold upload_pdf
  rw [if_pos hpdf, create_rag_system_empty _ _ _ hcfg]
  exact ⟨by simp, rfl⟩

/-- Witness for the amended C4 at a concrete input. -/
theorem ingest_empty_stores_empty_index_witness :
    (upload_pdf empty_state (fun _ => .error (.EmbeddingProviderError "never called"))
        "paper.pdf" "" "s1" 1000 200).1.vector_dbs "s1" = some ⟨[]⟩ ∧
      (upload_pdf empty_state (fun _ => .error (.EmbeddingProviderError "never called"))
        "paper.pdf" "" "s1" 1000 200).2 =
        .ok ⟨"PDF uploaded and indexed successfully", "paper.pdf", "s1", 0⟩ :=
  ingest_empty_stores_empty_index empty_state _ "paper.pdf" "s1" 1000 200 (by decide) (by decide)

/-- **C9**: if `create_rag_system` fails at any stage (splitting or
embedding), `upload_pdf` leaves the whole session state — in particular any
previously stored index and filename — exactly unchanged, and reports a
single 500 error: the replacement index is built fully before the session
maps are touched, so no partial index is ever stored. -/
theorem ingestion_failure_preserves_state (st : AppState)
    (provider : List String → Except CoreErr (List Embedding))
    (filename text session_id : String) (chunk_size chunk_overlap : Nat) (e : CoreErr)
    (herr : create_rag_system provider text chunk_size chunk_overlap = .error e) :
    (upload_pdf st provider filename text session_id chunk_size chunk_overlap).1 = st ∧
      ∃ d, (upload_pdf st provider filename text session_id chunk_size chunk_overlap).2 =
        .error ⟨500, d⟩ := by
  unfold upload_pdf
  by_cases hpdf : ".pdf".data.isSuffixOf filename.data = true
  · rw [if_pos hpdf, herr]
    exact ⟨rfl, "Error processing PDF: " ++ err_str e, rfl⟩
  · rw [if_neg hpdf]
    exact ⟨rfl, "Error processing PDF: 400: Only PDF files are allowed", rfl⟩

lemma create_rag_system_hello_boom :
    create_rag_system (fun _ => .error (.EmbeddingProviderError "boom")) "hello" 10 2 =
      .error (.EmbeddingProviderError "boom") := by
  unfold create_rag_system split
  rw [dif_neg (by decide)]
  have hw : walk_chunks 10 8 (by norm_num) ("hello" : String).toList = ["hello"] := by
    rw [walk_chunks, dif_neg (by decide), walk_chunks, dif_pos (by decide)]
    decide
  rw [hw]
  show abuild_from_list _ ["hello"] = _
  unfold abuild_from_list async_get_embeddings
  rw [sub_batches_small ["hello"] (by decide) (by decide)]
  rfl

/-- Witness for C9: a failing embedding provider leaves a session's
previously stored index and filename untouched. -/
theorem ingestion_failure_preserves_state_witness :
    (upload_pdf
        ⟨fun s => if s = "s1" then some ⟨[("old", [])]⟩ else none,
          fun s => if s = "s1" then some "old.pdf" else none, fun _ => none⟩
        (fun _ => .error (.EmbeddingProviderError "boom")) "new.pdf" "hello" "s1" 10 2).1 =
      ⟨fun s => if s = "s1" then some ⟨[("old", [])]⟩ else none,
        fun s => if s = "s1" then some "old.pdf" else none, fun _ => none⟩ ∧
      ∃ d, (upload_pdf
        ⟨fun s => if s = "s1" then some ⟨[("old", [])]⟩ else none,
          fun s => if s = "s1" then some "old.pdf" else none, fun _ => none⟩
        (fun _ => .error (.EmbeddingProviderError "boom")) "new.pdf" "hello" "s1" 10 2).2 =
        .error ⟨500, d⟩ :=
  ingestion_failure_preserves_state _ _ "new.pdf" "hello" "s1" 10 2
    (.EmbeddingProviderError "boom") create_rag_system_hello_boom

/-- Counterexample to **C8**: with nothing to clear, the clear-index
operation does *not* report a structured non-fatal result — `clear_pdf`
raises `HTTPException(404, "No PDF found for this session")`. -/
theorem clear_pdf_raises_counterexample :
    (clear_pdf empty_state "default").2 = .error ⟨404, "No PDF found for this session"⟩ := rfl

/-- **C8 (amended)**: with nothing to clear, the clear-history operation
reports the structured non-fatal nothing-to-clear message, but the
clear-index operation raises an `HTTPException` with status 404; neither
changes the state. -/
theorem clear_nothing_to_clear (st : AppState) (session_id : String)
    (hdb : st.vector_dbs session_id = none)
    (hh : st.conversation_histories session_id = none) :
    (clear_conversation st session_id).2 =
        "No conversation history found for this session" ∧
      (clear_conversation st session_id).1 = st ∧
      (clear_pdf st session_id).2 = .error ⟨404, "No PDF found for this session"⟩ ∧
      (clear_pdf st session_id).1 = st := by
  unfold clear_pdf clear_conversation
  rw [hdb, hh]
  simp

/-- Witness for the amended C8 at the empty state. -/
theorem clear_nothing_to_clear_witness :
    (clear_conversation empty_state "default").2 =
        "No conversation history found for this session" ∧
      (clear_conversation empty_state "default").1 = empty_state ∧
      (clear_pdf empty_state "default").2 = .error ⟨404, "No PDF found for this session"⟩ ∧
      (clear_pdf empty_state "default").1 = empty_state :=
  clear_nothing_to_clear empty_state "default" rfl rfl

end RagApp
